import Mathlib

/-!
Formal model of the WeChat/Feishu customer-acquisition automation system
(`src/core/engine.py`, `src/services/feishu.py`, `src/services/wechat.py`,
`src/services/wechat_contacts.py`).

The definitions below are shallow embeddings of the program's data model and
control flow: pure Lean functions mirroring the Python source line by line.
Time is modelled with exact arithmetic (`Nat`/`Int`); `threading.Event.wait`
becomes an explicit elapsed-time function; fallible paths return `Option`.
-/

/-- Binding status values stored in the Feishu field 微信绑定状态:
待添加 = `pendingAdd`, 已申请 = `applied`, 已绑定 = `bound`,
未找到 = `notFound`, 添加失败 = `failed`. -/
inductive BindingStatus
  | pendingAdd
  | applied
  | bound
  | notFound
  | failed
deriving DecidableEq, Repr

/-- Relationship classification produced by
`WeChatRPA._detect_relationship_state` (wechat.py:121-151). -/
inductive Relationship
  | friend
  | stranger
  | unknown
  | notFound
deriving DecidableEq, Repr

/-! ## Relationship detection (wechat.py:121-151) -/

/-- Button labels treated as the friend ("message") affordance
(wechat.py:126). -/
def friendLabels : List String := ["发消息", "发送消息", "Message"]

/-- Button labels treated as the stranger ("add contact") affordance
(wechat.py:127). -/
def addLabels : List String := ["添加到通讯录", "加好友", "Add to contacts"]

/-- A UI container polled by `_detect_relationship_state`: `present` models
`ctrl is not None and ctrl.Exists(0)`, `buttons` the names of the button
controls that exist inside it. -/
structure UIContainer where
  present : Bool
  buttons : List String
deriving DecidableEq, Repr

/-- `ctrl.ButtonControl(Name=name, searchDepth=15).Exists(0)` guarded by the
presence check of the container. -/
def hasButton (c : UIContainer) (name : String) : Bool :=
  c.present && c.buttons.contains name

/-- Some friend-label button exists in the container. -/
def hasFriendAffordance (c : UIContainer) : Bool :=
  friendLabels.any (hasButton c)

/-- Some add-label button exists in the container. -/
def hasAddAffordance (c : UIContainer) : Bool :=
  addLabels.any (hasButton c)

/-- One pass of the polling loop body of `_detect_relationship_state`
(wechat.py:129-139): containers are scanned in order; inside each container
the friend labels are checked before the add labels; the first hit returns. -/
def scanPass : List UIContainer → Option Relationship
  | [] => none
  | c :: cs =>
    if hasFriendAffordance c then some .friend
    else if hasAddAffordance c then some .stranger
    else scanPass cs

/-- The phase after the deadline (wechat.py:140-151): recheck affordances in
all containers; neither present anywhere gives `not_found`, else `unknown`. -/
def finalPhase (cs : List UIContainer) : Relationship :=
  let hasFriend := cs.any hasFriendAffordance
  let hasAdd := cs.any hasAddAffordance
  if !hasFriend && !hasAdd then .notFound else .unknown

/-- `WeChatRPA._detect_relationship_state` over containers whose button sets
stay fixed for the duration of the call. `polls` is the number of iterations
the `while time.time() < deadline` loop performs (any positive timeout gives
`polls ≥ 1`); with fixed containers every pass returns the same answer, so
the first pass decides. -/
def detectRelationshipState (cs : List UIContainer) (polls : Nat) : Relationship :=
  if polls = 0 then finalPhase cs
  else
    match scanPass cs with
    | some r => r
    | none => finalPhase cs

/-! ## The active-queue record iteration (engine.py:366-530) -/

/-- The observations consumed by one record iteration of
`TaskEngine._handle_apply_queue` (engine.py:366-489) together with
`_send_welcome_and_update` (engine.py:490-530):
`profileOpened` = `_search_and_open_profile` returned a window;
`notFoundPopup` = result of the `_has_add_friend_not_found_popup` check
(as intended by the call sites, see the method-resolution model below);
`relationship` = result of `_detect_relationship_state`;
`applyOk` = the 添加到通讯录 click succeeded;
`welcomeEnabled`/`welcomeStepsNonempty` = welcome configuration;
`welcomeSendOk` = `send_welcome_package` returned True without raising. -/
structure ApplyObs where
  profileOpened : Bool
  notFoundPopup : Bool
  relationship : Relationship
  applyOk : Bool
  welcomeEnabled : Bool
  welcomeStepsNonempty : Bool
  welcomeSendOk : Bool
deriving DecidableEq, Repr

/-- The status value (field 微信绑定状态) written by one record iteration of
`_handle_apply_queue`, transcribed from engine.py:383-489 and
engine.py:490-530 (`none` = the record is left unchanged for retry):
* profile card absent: popup confirmed gives 未找到 (engine.py:387-397);
* friend: `_send_welcome_and_update` writes 已绑定 when welcome is disabled
  or has no steps, or when the send succeeds (engine.py:406-413, 508-530);
* stranger: a successful apply click writes 已申请 (engine.py:415-465);
* not_found: popup confirmed gives 未找到 (engine.py:467-479);
* unknown: no write (engine.py:481). -/
def applyQueueStatusWrite (o : ApplyObs) : Option BindingStatus :=
  if !o.profileOpened then
    if o.notFoundPopup then some .notFound else none
  else
    match o.relationship with
    | .friend =>
      if !(o.welcomeEnabled && o.welcomeStepsNonempty) then some .bound
      else if o.welcomeSendOk then some .bound else none
    | .stranger => if o.applyOk then some .applied else none
    | .notFound => if o.notFoundPopup then some .notFound else none
    | .unknown => none

/-- `WeChatContactsOperations._delete_by_stored_nickname`
(wechat_contacts.py:576-649): among the records matching the stored nickname
(listed as record id paired with current 微信绑定状态), prefer the first
whose status is 已申请, else take the first item; the chosen record is then
written 已绑定. -/
def deleteByNicknameTarget (items : List (String × BindingStatus)) :
    Option (String × BindingStatus) :=
  match items.find? (fun p => p.2 == BindingStatus.applied) with
  | some p => some p
  | none => items.head?

/-- The write performed by `FeishuClient.upsert_contact_profile`
(feishu.py:515-593). -/
inductive UpsertAction
  | updateExisting (recordId : String) (oldStatus newStatus : BindingStatus)
  | createNew (status : BindingStatus)
deriving DecidableEq, Repr

/-- `FeishuClient.upsert_contact_profile` as invoked by passive discovery
(wechat_contacts.py:699, 793): `phone=None` and `status="已绑定"`, so the
phone branch (feishu.py:558-571) is skipped; the first record matching the
nickname is updated with status 已绑定 (feishu.py:574-588), else a new record
is created with that status (feishu.py:590-593). -/
def upsertContactProfilePassive
    (nicknameMatches : List (String × BindingStatus)) : UpsertAction :=
  match nicknameMatches.head? with
  | some p => .updateExisting p.1 p.2 .bound
  | none => .createNew .bound

/-- The transition graph of spec §3, stated from the spec's words:
PendingAdd to Applied/NotFound/Failed, Applied to Bound/Failed, and no
record leaves Bound or NotFound. -/
def specTransitionAllowed : BindingStatus → BindingStatus → Bool
  | .pendingAdd, .applied => true
  | .pendingAdd, .notFound => true
  | .pendingAdd, .failed => true
  | .applied, .bound => true
  | .applied, .failed => true
  | _, _ => false

/-- The spec graph extended with the transition PendingAdd to Bound (taken by
the code when a 待添加 record already classifies as friend) and with
self-writes (rewriting the current status is not a move). -/
def extTransitionAllowed (f t : BindingStatus) : Bool :=
  specTransitionAllowed f t || (f == .pendingAdd && t == .bound) || f == t

/-! ## Driver call sites and the wechat lock (engine.py:366-556) -/

/-- The `AutomationDriver` (WeChatRPA) operations invoked by the engine. -/
inductive DriverOp
  | searchAndOpenProfile
  | hasAddFriendNotFoundPopup
  | detectRelationship
  | extractNicknameFromProfile
  | clickAddToContacts
  | handleConfirmDialog
  | sendWelcomePackage
  | escCloseProfile
  | scanNewFriendsViaContacts
deriving DecidableEq, Repr

/-- A driver call made by the engine, tagged with whether the call site sits
inside a `with self.wechat_lock` block. -/
structure DriverCall where
  op : DriverOp
  underWechatLock : Bool
deriving DecidableEq, Repr

/-- The sequence of driver calls one record iteration of
`_handle_apply_queue` makes, with the lock state at each call site,
transcribed from engine.py:382-489 and engine.py:508-523:
* `_search_and_open_profile` runs under the lock (engine.py:383-384);
* the not-found popup check runs after the `with` block exits
  (engine.py:387, 468);
* `_detect_relationship_state` (engine.py:401) and
  `_extract_nickname_from_profile` (engine.py:417) run outside the lock;
* the 添加到通讯录 click and the confirm dialog run under the lock
  (engine.py:421-446), the dialog only when the click succeeded;
* `send_welcome_package` runs under the lock (engine.py:519-520);
* the Esc that closes the profile card runs in the `finally` outside any
  lock (engine.py:482-488). -/
def applyQueueDriverTrace (o : ApplyObs) : List DriverCall :=
  ⟨.searchAndOpenProfile, true⟩ ::
    (if !o.profileOpened then [⟨.hasAddFriendNotFoundPopup, false⟩]
     else
       ⟨.detectRelationship, false⟩ ::
         ((match o.relationship with
           | .friend =>
             if o.welcomeEnabled && o.welcomeStepsNonempty then
               [⟨.sendWelcomePackage, true⟩]
             else []
           | .stranger =>
             ⟨.extractNicknameFromProfile, false⟩ ::
               ⟨.clickAddToContacts, true⟩ ::
                 (if o.applyOk then [⟨.handleConfirmDialog, true⟩] else [])
           | .notFound => [⟨.hasAddFriendNotFoundPopup, false⟩]
           | .unknown => []) ++ [⟨.escCloseProfile, false⟩]))

/-- The driver calls one passive-loop iteration makes
(`_handle_passive_new_friends`, engine.py:532-556): the whole scan runs
inside `with self.wechat_lock`. -/
def passiveDriverTrace : List DriverCall :=
  [⟨.scanNewFriendsViaContacts, true⟩]

/-- The driver operations whose engine call sites are inside a
`with self.wechat_lock` block. -/
def lockedDriverOps : List DriverOp :=
  [.searchAndOpenProfile, .clickAddToContacts, .handleConfirmDialog,
   .sendWelcomePackage, .scanNewFriendsViaContacts]

/-! ## Python method resolution on the imported WeChatRPA class -/

/-- Outcome of a Python method call on an object. -/
inductive PyCallResult
  | ok
  | typeError
  | attributeError
deriving DecidableEq, Repr

/-- The method table of `class WeChatRPA` in src/services/wechat.py:
(method name, required positional parameters, optional parameters), `self`
excluded.  The engine constructs exactly this class
(`from src.services.wechat import WeChatRPA`, engine.py:18, 257). -/
def wechatRPAMethodTable : List (String × Nat × Nat) :=
  [("__init__", 0, 1),
   ("_activate_window", 0, 0),
   ("_copy_image_to_clipboard", 1, 0),
   ("_clean_keyword", 1, 0),
   ("_detect_relationship_state", 1, 1),
   ("_search_and_open_profile", 1, 0),
   ("check_relationship", 1, 0),
   ("apply_friend", 1, 0),
   ("send_welcome_package", 2, 0),
   ("_get_all_chat_messages", 1, 0),
   ("_find_chat_message_list", 1, 0),
   ("_collect_all_text_from_control", 1, 2),
   ("_chat_has_keywords", 2, 0),
   ("_find_chat_content_area", 1, 0),
   ("_find_control_by_name", 3, 0),
   ("_find_all_list_controls", 1, 0),
   ("_collect_all_controls", 2, 2),
   ("_open_profile_from_chat", 1, 0),
   ("_wait_profile_window", 2, 0),
   ("_click_avatar_if_possible", 1, 0),
   ("_fallback_profile_from_header", 2, 0),
   ("_extract_profile_info", 1, 1),
   ("_random_delay", 0, 2),
   ("_click_contacts_tab", 0, 0),
   ("_click_new_friends_entry", 0, 0),
   ("_get_pending_verification_items", 0, 1),
   ("_open_verification_detail", 1, 0),
   ("_click_verify_button", 0, 0),
   ("_confirm_verification", 0, 0),
   ("_extract_wechat_id_from_profile", 0, 0),
   ("_return_to_chat_list", 0, 0),
   ("scan_new_friends_via_contacts", 0, 0),
   ("scan_passive_new_friends", 0, 2),
   ("_find_chat_list", 1, 0)]

/-- Python call semantics against a method table: a missing name raises
`AttributeError`; an argument count outside the required-to-maximum range
raises `TypeError`. -/
def resolveCall (table : List (String × Nat × Nat)) (name : String)
    (nargs : Nat) : PyCallResult :=
  match table.find? (fun m => m.1 == name) with
  | none => .attributeError
  | some m => if m.2.1 ≤ nargs && nargs ≤ m.2.1 + m.2.2 then .ok else .typeError

/-- The passive loop calls
`wechat.scan_new_friends_via_contacts(feishu, self.welcome_enabled,
self.welcome_steps)` with three arguments (engine.py:551-553). -/
def passiveScanArgCount : Nat := 3

/-- The active loop calls `wechat._has_add_friend_not_found_popup()` with no
arguments (engine.py:387, 468). -/
def notFoundPopupArgCount : Nat := 0

/-! ## Loop exception structure (engine.py:280-364) -/

/-- One scheduler tick of an engine loop thread: the flag values the
iteration observes and whether the iteration body raises. -/
structure LoopTick where
  stopSet : Bool
  pauseSet : Bool
  bodyRaises : Bool
deriving DecidableEq, Repr

/-- How an engine loop thread ends (relative to the modelled schedule). -/
inductive LoopExit
  | stopObserved
  | exceptionCaught
  | scheduleExhausted
deriving DecidableEq, Repr

/-- The control structure shared by `TaskEngine._run` (engine.py:292-314) and
`TaskEngine._run_passive_monitor` (engine.py:334-358):

`try: while not stop: if paused: wait(1); continue; body(); wait(interval)`
`except Exception: if not stop: log`

The `except` sits outside the `while`, so an exception raised by the body
leaves the loop; it is caught and logged at the function boundary and the
thread returns.  Result: (number of body executions, how the thread ended). -/
def engineLoopRun : List LoopTick → Nat × LoopExit
  | [] => (0, .scheduleExhausted)
  | t :: rest =>
    if t.stopSet then (0, .stopObserved)
    else if t.pauseSet then engineLoopRun rest
    else if t.bodyRaises then (1, .exceptionCaught)
    else
      let r := engineLoopRun rest
      (r.1 + 1, r.2)

/-- The loop as the spec sentence describes it, stated from the spec's words
for comparison: the exception is caught at the loop boundary and the same
loop continues with its next tick. -/
def specLoopRun : List LoopTick → Nat × LoopExit
  | [] => (0, .scheduleExhausted)
  | t :: rest =>
    if t.stopSet then (0, .stopObserved)
    else if t.pauseSet then specLoopRun rest
    else
      let r := specLoopRun rest
      (r.1 + 1, r.2)

/-! ## Blocking waits and signals (engine.py:110-111, 273-278, 300-311, 336-355) -/

/-- The two `threading.Event` objects of the engine: `stop_event` and
`pause_event` (engine.py:110-111). -/
inductive EngineEvent
  | stopEvent
  | pauseEvent
deriving DecidableEq, Repr

/-- `threading.Event.wait(timeout)`: blocks for `timeout`, or returns as soon
as the event is set.  `signalAt` is the time the event gets set, measured
from the start of the wait (`none` = never set); the result is the elapsed
time spent in the wait. -/
def eventWaitElapsed (signalAt : Option Nat) (timeout : Nat) : Nat :=
  match signalAt with
  | none => timeout
  | some s => min s timeout

/-- A blocking wait site inside the engine loops: which event its
`Event.wait` call blocks on. -/
structure WaitSite where
  site : String
  event : EngineEvent
deriving DecidableEq, Repr

/-- Every blocking wait in `_run` and `_run_passive_monitor` is a
`self.pause_event.wait(...)` call: the paused-state check and the
inter-iteration wait of the active loop (engine.py:303, 311) and of the
passive loop (engine.py:339, 355). -/
def engineWaitSites : List WaitSite :=
  [⟨"active.pausedCheck", .pauseEvent⟩,
   ⟨"active.pollWait", .pauseEvent⟩,
   ⟨"passive.pausedCheck", .pauseEvent⟩,
   ⟨"passive.scanWait", .pauseEvent⟩]

/-- `stop()` sets `stop_event` only (engine.py:273-274). -/
def stopSignalSets : EngineEvent → Bool
  | .stopEvent => true
  | .pauseEvent => false

/-- `pause()` sets `pause_event` only (engine.py:175-183). -/
def pauseSignalSets : EngineEvent → Bool
  | .stopEvent => false
  | .pauseEvent => true

/-- Elapsed time of a wait site given the times at which `stop()` and
`pause()` are called (measured from the start of the wait): the wait blocks
on the site's own event. -/
def waitSiteElapsed (w : WaitSite) (stopAt pauseAt : Option Nat)
    (timeout : Nat) : Nat :=
  eventWaitElapsed
    (match w.event with
     | .stopEvent => stopAt
     | .pauseEvent => pauseAt)
    timeout

/-- The passive loop's inter-iteration wait duration (engine.py:350-353):
`max(10.0, passive_scan_interval + uniform(-jitter, jitter))`. -/
def passiveWaitSeconds (interval jitterDraw : Int) : Int :=
  max 10 (interval + jitterDraw)

/-- The active loop's poll interval default (`feishu_poll_interval`,
engine.py:125). -/
def defaultFeishuPollInterval : Nat := 5

/-! ## FeishuClient._request retry policy (feishu.py:124-234) -/

/-- Outcome of one HTTP attempt inside `FeishuClient._request`:
`httpOk code` = `raise_for_status` passes and the JSON body carries business
code `code`; `httpErr status` = `raise_for_status` raises `HTTPError` with
that status; `netErr` = `ConnectionError`/`Timeout`. -/
inductive AttemptOutcome
  | httpOk (bizCode : Int)
  | httpErr (status : Nat)
  | netErr
deriving DecidableEq, Repr

/-- The error `_request` surfaces to its caller. -/
inductive RequestError
  | httpError (status : Nat)
  | netError
  | bizError (code : Int)
  | noAttempt
deriving DecidableEq, Repr

/-- How a `_request` call ends. -/
inductive ReqOutcome
  | success
  | failed (e : RequestError)
deriving DecidableEq, Repr

/-- The statuses the retry branch accepts (feishu.py:191): 429, 502, 503,
504. -/
def retryableStatus (s : Nat) : Bool :=
  s == 429 || s == 502 || s == 503 || s == 504

/-- The backoff slept before retrying attempt `attempt`:
`_retry_backoff_factor ** (attempt + 1)` with factor 2.0 (feishu.py:40, 195,
219), an exact power of two. -/
def backoffWait (attempt : Nat) : Nat := 2 ^ (attempt + 1)

/-- The `for attempt in range(max_retries + 1)` loop of `_request`
(feishu.py:154-234), from attempt index `attempt` with `remaining` loop
iterations left and `lastErr` the last exception recorded:
* HTTP success with business code 0 returns the payload; a non-zero business
  code raises `RuntimeError` which no `except` clause catches, ending the
  call at once (feishu.py:168-177);
* an `HTTPError` with a retryable status and `attempt < max_retries` sleeps
  the backoff and continues; otherwise it re-raises at once
  (feishu.py:179-213);
* a connection/timeout error with `attempt < max_retries` sleeps the backoff
  and continues; otherwise it re-raises (feishu.py:215-227);
* an exhausted loop re-raises the recorded last exception, or a bare
  `RuntimeError` when none exists (feishu.py:229-234).
Result: (outcome, HTTP attempts performed, backoff waits slept). -/
def requestFrom (maxRetries : Nat) (outcomes : Nat → AttemptOutcome) :
    Nat → Nat → Option RequestError → ReqOutcome × Nat × List Nat
  | 0, _, lastErr =>
    (match lastErr with
     | some e => (.failed e, 0, [])
     | none => (.failed .noAttempt, 0, []))
  | remaining + 1, attempt, _ =>
    match outcomes attempt with
    | .httpOk code =>
      if code == 0 then (.success, 1, [])
      else (.failed (.bizError code), 1, [])
    | .httpErr s =>
      if retryableStatus s && decide (attempt < maxRetries) then
        let r := requestFrom maxRetries outcomes remaining (attempt + 1)
          (some (.httpError s))
        (r.1, r.2.1 + 1, backoffWait attempt :: r.2.2)
      else (.failed (.httpError s), 1, [])
    | .netErr =>
      if decide (attempt < maxRetries) then
        let r := requestFrom maxRetries outcomes remaining (attempt + 1)
          (some .netError)
        (r.1, r.2.1 + 1, backoffWait attempt :: r.2.2)
      else (.failed .netError, 1, [])

/-- `FeishuClient._request` entered at attempt 0 with `max_retries + 1` loop
iterations available. -/
def feishuRequest (maxRetries : Nat) (outcomes : Nat → AttemptOutcome) :
    ReqOutcome × Nat × List Nat :=
  requestFrom maxRetries outcomes (maxRetries + 1) 0 none

/-- `_max_retries` default (feishu.py:39). -/
def defaultMaxRetries : Nat := 3

/-- Spec scenario 4: three consecutive 503 responses, then an HTTP 200 whose
body carries business code 0. -/
def scenarioFourOutcomes : Nat → AttemptOutcome :=
  fun n => if n < 3 then .httpErr 503 else .httpOk 0

/-- An attempt outcome the loop responds to with a retry (when attempts
remain): a retryable HTTP status or a connection/timeout error. -/
def retriedOutcome : AttemptOutcome → Bool
  | .httpOk _ => false
  | .httpErr s => retryableStatus s
  | .netErr => true

/-! ## Request spacing (feishu.py:37-43, 146-160) -/

/-- One top-level `_request` call for the spacing model: `arrival` is the
time the caller enters `_request`; `attemptGaps` the within-call delays
between consecutive attempt starts (HTTP duration plus backoff sleep of
each retry). -/
structure RequestCallTiming where
  arrival : Nat
  attemptGaps : List Nat
deriving DecidableEq, Repr

/-- The rate-limit gate at the top of `_request` (feishu.py:147-152): when
less than `minInterval` has elapsed since `lastReq` (the stored
`_last_request_time`), sleep the difference, so the first attempt starts at
`lastReq + minInterval`; otherwise it starts at `arrival`. -/
def gatedStart (minInterval lastReq arrival : Nat) : Nat :=
  if arrival < lastReq + minInterval then lastReq + minInterval else arrival

/-- `_last_request_time` after the call: it is set at the start of every
attempt (feishu.py:160), so it ends at the start of the final attempt. -/
def lastAttemptStart (start : Nat) (gaps : List Nat) : Nat := start + gaps.sum

/-- First-attempt start times of a sequence of sequential `_request` calls,
folding the `_last_request_time` state (initially 0.0, feishu.py:37). -/
def requestStartTimes (minInterval : Nat) : Nat → List RequestCallTiming → List Nat
  | _, [] => []
  | lastReq, c :: cs =>
    let s := gatedStart minInterval lastReq c.arrival
    s :: requestStartTimes minInterval (lastAttemptStart s c.attemptGaps) cs

/-- `_min_request_interval` default in milliseconds: 0.5 s, set at
feishu.py:38 and confirmed by the `or 0.5` fallback at feishu.py:43. -/
def defaultMinRequestIntervalMs : Nat := 500

/-! ## pause / resume (engine.py:171-191) -/

/-- The engine state relevant to `pause`/`resume`: whether `pause_event` is
set. -/
structure EngineState where
  paused : Bool
deriving DecidableEq, Repr

/-- `TaskEngine.pause` (engine.py:175-183): returns False when already
paused, else sets `pause_event` and returns True. -/
def enginePause (s : EngineState) : Bool × EngineState :=
  if s.paused then (false, s) else (true, ⟨true⟩)

/-- `TaskEngine.resume` (engine.py:185-191): returns False when not paused,
else clears `pause_event` and returns True. -/
def engineResume (s : EngineState) : Bool × EngineState :=
  if !s.paused then (false, s) else (true, ⟨false⟩)

/-! ## Helper lemmas -/

theorem le_gatedStart (m l a : Nat) : l + m ≤ gatedStart m l a := by
  unfold gatedStart
  split <;> omega

theorem requestSpacingAll (m : Nat) :
    ∀ (cs : List RequestCallTiming) (last : Nat),
      List.Chain' (fun a b => a + m ≤ b) (requestStartTimes m last cs) ∧
      ∀ x ∈ requestStartTimes m last cs, last + m ≤ x := by
  intro cs
  induction cs with
  | nil =>
    intro last
    exact ⟨List.chain'_nil, by simp [requestStartTimes]⟩
  | cons c cs ih =>
    intro last
    obtain ⟨ihChain, ihAll⟩ :=
      ih (lastAttemptStart (gatedStart m last c.arrival) c.attemptGaps)
    constructor
    · simp only [requestStartTimes]
      refine List.chain'_cons'.mpr ⟨?_, ihChain⟩
      intro y hy
      have hmem := List.mem_of_mem_head? hy
      have h1 := ihAll y hmem
      have h2 : gatedStart m last c.arrival ≤
          lastAttemptStart (gatedStart m last c.arrival) c.attemptGaps :=
        Nat.le_add_right _ _
      simp only [lastAttemptStart] at h1
      omega
    · intro x hx
      simp only [requestStartTimes, List.mem_cons] at hx
      rcases hx with h | h
      · subst h
        exact le_gatedStart m last c.arrival
      · have h1 := ihAll x h
        have h3 := le_gatedStart m last c.arrival
        simp only [lastAttemptStart] at h1
        omega

theorem applyTraceLockTable :
    ∀ o : ApplyObs, (applyQueueDriverTrace o).all
      (fun c => c.underWechatLock == lockedDriverOps.contains c.op) = true := by
  rintro ⟨po, pop, rel, ao, we, ws, wo⟩
  cases po <;> cases pop <;> cases rel <;> cases ao <;> cases we <;>
    cases ws <;> cases wo <;> decide

theorem applyWriteCheck :
    ∀ o : ApplyObs, (applyQueueStatusWrite o).all
      (fun t => extTransitionAllowed .pendingAdd t &&
        !(t == BindingStatus.pendingAdd)) = true := by
  rintro ⟨po, pop, rel, ao, we, ws, wo⟩
  cases po <;> cases pop <;> cases rel <;> cases ao <;> cases we <;>
    cases ws <;> cases wo <;> decide

theorem scanPass_friend :
    ∀ (cs : List UIContainer) (i : Nat) (h : i < cs.length),
      hasFriendAffordance (cs.get ⟨i, h⟩) = true →
      (∀ j (hj : j < i), hasAddAffordance (cs.get ⟨j, Nat.lt_trans hj h⟩) = false) →
      scanPass cs = some .friend := by
  intro cs
  induction cs with
  | nil =>
    intro i h
    exact absurd h (Nat.not_lt_zero i)
  | cons c cs ih =>
    intro i h hf hna
    by_cases hc : hasFriendAffordance c = true
    · simp [scanPass, hc]
    · cases i with
      | zero =>
        simp only [List.get] at hf
        exact absurd hf hc
      | succ k =>
        have hca : hasAddAffordance c = false := by
          have := hna 0 (Nat.succ_pos k)
          simpa using this
        have hfb : hasFriendAffordance c = false := by
          simpa using hc
        simp only [scanPass, hfb, hca, Bool.false_eq_true, if_false]
        refine ih k (Nat.lt_of_succ_lt_succ h) ?_ ?_
        · simpa using hf
        · intro j hj
          have := hna (j + 1) (Nat.succ_lt_succ hj)
          simpa using this

theorem requestFrom_lastErrIrrel (mr : Nat) (oc : Nat → AttemptOutcome)
    (r attempt : Nat) (l1 l2 : Option RequestError) :
    requestFrom mr oc (r + 1) attempt l1 = requestFrom mr oc (r + 1) attempt l2 := by
  cases h : oc attempt <;> simp only [requestFrom, h]

theorem requestFrom_skipRetried (mr : Nat) (oc : Nat → AttemptOutcome) :
    ∀ (j r attempt : Nat) (l : Option RequestError),
      (∀ i, i < j → retriedOutcome (oc (attempt + i)) = true) →
      attempt + r = mr + 1 → j < r →
      requestFrom mr oc r attempt l =
        ((requestFrom mr oc (r - j) (attempt + j) none).1,
         (requestFrom mr oc (r - j) (attempt + j) none).2.1 + j,
         ((List.range' attempt j).map backoffWait) ++
           (requestFrom mr oc (r - j) (attempt + j) none).2.2) := by
  intro j
  induction j with
  | zero =>
    intro r attempt l _ hsum hlt
    obtain ⟨k, hk⟩ : ∃ k, r = k + 1 := ⟨r - 1, by omega⟩
    subst hk
    rw [requestFrom_lastErrIrrel mr oc k attempt l none]
    simp
  | succ n ih =>
    intro r attempt l hret hsum hlt
    obtain ⟨k, hk⟩ : ∃ k, r = k + 1 := ⟨r - 1, by omega⟩
    subst hk
    have h0 : retriedOutcome (oc attempt) = true := by
      have := hret 0 (Nat.succ_pos n)
      simpa using this
    have hamr : attempt < mr := by omega
    have hrec : ∀ i, i < n → retriedOutcome (oc (attempt + 1 + i)) = true := by
      intro i hi
      have := hret (i + 1) (Nat.succ_lt_succ hi)
      have harith : attempt + (i + 1) = attempt + 1 + i := by omega
      rwa [harith] at this
    have hsum2 : attempt + 1 + k = mr + 1 := by omega
    have hlt2 : n < k := by omega
    have hr1 : k + 1 - (n + 1) = k - n := by omega
    have hr2 : attempt + 1 + n = attempt + (n + 1) := by omega
    have hr3 : List.range' attempt (n + 1) =
        attempt :: List.range' (attempt + 1) n := rfl
    cases h : oc attempt with
    | httpOk code =>
      rw [h] at h0
      simp [retriedOutcome] at h0
    | httpErr s =>
      have hrs : retryableStatus s = true := by
        rw [h] at h0
        simpa [retriedOutcome] using h0
      simp only [requestFrom, h]
      rw [if_pos (show (retryableStatus s && decide (attempt < mr)) = true by
        simp [hrs, hamr])]
      rw [ih k (attempt + 1) (some (.httpError s)) hrec hsum2 hlt2]
      rw [hr1, hr2, hr3]
      simp only [List.map_cons, List.cons_append]
      rw [Nat.add_assoc]
    | netErr =>
      simp only [requestFrom, h]
      rw [if_pos (show decide (attempt < mr) = true by simp [hamr])]
      rw [ih k (attempt + 1) (some .netError) hrec hsum2 hlt2]
      rw [hr1, hr2, hr3]
      simp only [List.map_cons, List.cons_append]
      rw [Nat.add_assoc]

/-! ## Claim theorems -/

/-- Claim C1 counterexample: with the schedule "iteration 1 raises (stop not
signalled), iteration 2 would run normally", the code loop executes exactly
one body and the thread ends with the exception caught at the function
boundary, while the loop described by the claim would continue and execute
the second body as well: the loop does not continue with its next tick. -/
theorem engineLoopContinueAfterRaise_false :
    engineLoopRun [⟨false, false, true⟩, ⟨false, false, false⟩] =
      (1, .exceptionCaught) ∧
    specLoopRun [⟨false, false, true⟩, ⟨false, false, false⟩] =
      (2, .scheduleExhausted) ∧
    engineLoopRun [⟨false, false, true⟩, ⟨false, false, false⟩] ≠
      specLoopRun [⟨false, false, true⟩, ⟨false, false, false⟩] := by
  decide

/-- Claim C1 (amended): in both the active loop (`_run`) and the passive loop
(`_run_passive_monitor`), an unhandled exception raised by a loop iteration
while stop has not been signalled is caught and logged once — at the thread
boundary, outside the `while` — and the loop thread then terminates: the body
runs exactly once for the raising tick plus once for every earlier
non-paused tick, regardless of what the schedule holds afterwards. -/
theorem engineLoopExceptionTerminatesLoop :
    ∀ (pre post : List LoopTick) (t : LoopTick),
      (∀ u ∈ pre, u.stopSet = false) →
      (∀ u ∈ pre, u.pauseSet = false → u.bodyRaises = false) →
      t.stopSet = false → t.pauseSet = false → t.bodyRaises = true →
      engineLoopRun (pre ++ t :: post) =
        (pre.countP (fun u => !u.pauseSet) + 1, .exceptionCaught) := by
  intro pre
  induction pre with
  | nil =>
    intro post t _ _ hs hp hr
    simp [engineLoopRun, hs, hp, hr]
  | cons u pre ih =>
    intro post t hstop hnr hs hp hr
    have hu : u.stopSet = false := hstop u (by simp)
    have hstop2 : ∀ v ∈ pre, v.stopSet = false := fun v hv => hstop v (by simp [hv])
    have hnr2 : ∀ v ∈ pre, v.pauseSet = false → v.bodyRaises = false :=
      fun v hv => hnr v (by simp [hv])
    have ihx := ih post t hstop2 hnr2 hs hp hr
    cases hup : u.pauseSet with
    | true =>
      simp only [List.cons_append, engineLoopRun, hu, hup]
      simp [List.countP_cons, hup, ihx]
    | false =>
      have hur : u.bodyRaises = false := hnr u (by simp) hup
      simp only [List.cons_append, engineLoopRun, hu, hup, hur]
      simp [List.countP_cons, hup, ihx]

/-- Witness for C1: a schedule with one paused tick and one normal tick before
the raising tick runs two bodies and ends with the exception caught. -/
theorem engineLoopExceptionTerminatesLoop_w :
    engineLoopRun ([⟨false, true, false⟩, ⟨false, false, false⟩] ++
        (⟨false, false, true⟩ : LoopTick) :: [⟨false, false, false⟩]) =
      (([(⟨false, true, false⟩ : LoopTick), ⟨false, false, false⟩].countP
          (fun u => !u.pauseSet)) + 1, .exceptionCaught) :=
  engineLoopExceptionTerminatesLoop
    [⟨false, true, false⟩, ⟨false, false, false⟩] [⟨false, false, false⟩]
    ⟨false, false, true⟩ (by decide) (by decide) rfl rfl rfl

/-- Claim C2 counterexample: on a record whose profile card opens and whose
relationship polls as unknown, the engine performs the relationship
classification driver call with the wechat lock NOT held (the `with
self.wechat_lock` block at engine.py:383 covers only the profile open), so
not every driver call is executed while holding the ResourceMutex. -/
theorem driverCallOutsideLock_found :
    (⟨.detectRelationship, false⟩ : DriverCall) ∈
      applyQueueDriverTrace ⟨true, false, .unknown, false, false, false, false⟩ ∧
    (⟨.detectRelationship, false⟩ : DriverCall).underWechatLock = false := by
  decide

/-- Claim C2 (amended): the engine holds `wechat_lock` exactly at the profile
open, the apply click with its confirm dialog, the welcome-package send and
the passive scan; relationship classification, nickname extraction, the
not-found popup checks and the closing Esc run outside the lock. -/
theorem wechatLockDiscipline :
    (∀ (o : ApplyObs) (c : DriverCall), c ∈ applyQueueDriverTrace o →
        c.underWechatLock = lockedDriverOps.contains c.op) ∧
    (∀ c ∈ passiveDriverTrace, c.underWechatLock = lockedDriverOps.contains c.op) := by
  constructor
  · intro o c hc
    have h := applyTraceLockTable o
    rw [List.all_eq_true] at h
    have := h c hc
    exact eq_of_beq this
  · decide

/-- Witness for C2: the profile-open call of a concrete record iteration is
under the lock, matching the locked-operation table. -/
theorem wechatLockDiscipline_w :
    (⟨.searchAndOpenProfile, true⟩ : DriverCall).underWechatLock =
      lockedDriverOps.contains DriverOp.searchAndOpenProfile :=
  wechatLockDiscipline.1 ⟨true, false, .unknown, false, false, false, false⟩
    ⟨.searchAndOpenProfile, true⟩ (by decide)

/-- Claim C3: the passive loop's only driver call is
`scan_new_friends_via_contacts` invoked with three arguments, which the
imported `WeChatRPA` defines with no parameters besides `self` (TypeError);
and every active-loop record whose profile fails to open, or whose
relationship classifies as not_found, reaches the
`_has_add_friend_not_found_popup()` call, a method defined nowhere on that
class (AttributeError). -/
theorem missingDriverMethods :
    passiveDriverTrace = [⟨.scanNewFriendsViaContacts, true⟩] ∧
    resolveCall wechatRPAMethodTable "scan_new_friends_via_contacts"
      passiveScanArgCount = .typeError ∧
    (∀ o : ApplyObs, o.profileOpened = false →
        (⟨.hasAddFriendNotFoundPopup, false⟩ : DriverCall) ∈
          applyQueueDriverTrace o) ∧
    (∀ o : ApplyObs, o.profileOpened = true → o.relationship = .notFound →
        (⟨.hasAddFriendNotFoundPopup, false⟩ : DriverCall) ∈
          applyQueueDriverTrace o) ∧
    resolveCall wechatRPAMethodTable "_has_add_friend_not_found_popup"
      notFoundPopupArgCount = .attributeError := by
  refine ⟨rfl, by decide, ?_, ?_, by decide⟩
  · rintro ⟨po, pop, rel, ao, we, ws, wo⟩ h
    simp only at h
    subst h
    simp [applyQueueDriverTrace]
  · rintro ⟨po, pop, rel, ao, we, ws, wo⟩ h hrel
    simp only at h hrel
    subst h
    subst hrel
    simp [applyQueueDriverTrace]

/-- Witness for C3: a record whose profile card fails to open reaches the
not-found popup check. -/
theorem missingDriverMethods_w :
    (⟨.hasAddFriendNotFoundPopup, false⟩ : DriverCall) ∈
      applyQueueDriverTrace ⟨false, true, .unknown, false, false, false, false⟩ :=
  missingDriverMethods.2.2.1 ⟨false, true, .unknown, false, false, false, false⟩ rfl

/-- Claim C4 counterexample: a 待添加 (PendingAdd) record whose profile opens
and classifies as friend, with welcome disabled, is written 已绑定 (Bound)
by `_handle_apply_queue` via `_send_welcome_and_update` — a transition the
spec §3 graph does not allow. -/
theorem pendingAddToBoundWrite_found :
    applyQueueStatusWrite ⟨true, false, .friend, false, false, false, false⟩ =
      some .bound ∧
    specTransitionAllowed .pendingAdd .bound = false ∧
    BindingStatus.bound ≠ .pendingAdd := by
  decide

/-- Claim C4 (amended): every status write of the active loop on a 待添加
record, and every nickname-matched write of the delete-by-nickname path and
of the passive upsert, stays within the spec §3 graph extended with
PendingAdd→Bound (self-writes tolerated) — provided the nickname-matched
records are ones the engine itself produced (status 已申请 or 已绑定, the
only statuses the engine gives nicknamed records); no write ever produces
待添加, so no history shows Bound→PendingAdd. -/
theorem statusWritesFollowExtendedGraph :
    (∀ (o : ApplyObs) (t : BindingStatus), applyQueueStatusWrite o = some t →
        extTransitionAllowed .pendingAdd t = true ∧ t ≠ .pendingAdd) ∧
    (∀ (items : List (String × BindingStatus)) (p : String × BindingStatus),
        deleteByNicknameTarget items = some p →
        (∀ q ∈ items, q.2 = .applied ∨ q.2 = .bound) →
        extTransitionAllowed p.2 .bound = true) ∧
    (∀ (items : List (String × BindingStatus)) (rid : String)
        (oldS newS : BindingStatus),
        upsertContactProfilePassive items = .updateExisting rid oldS newS →
        (∀ q ∈ items, q.2 = .applied ∨ q.2 = .bound) →
        newS = .bound ∧ extTransitionAllowed oldS .bound = true) ∧
    (∀ (items : List (String × BindingStatus)) (st : BindingStatus),
        upsertContactProfilePassive items = .createNew st → st = .bound) := by
  refine ⟨?_, ?_, ?_, ?_⟩
  · intro o t h
    have hall := applyWriteCheck o
    rw [h] at hall
    simp only [Option.all_some] at hall
    constructor
    · exact (Bool.and_eq_true_iff.mp hall).1
    · intro ht
      subst ht
      simp at hall
  · intro items p h hall
    unfold deleteByNicknameTarget at h
    cases hfind : items.find? (fun q => q.2 == BindingStatus.applied) with
    | some q =>
      rw [hfind] at h
      injection h with h
      have hq := List.find?_some hfind
      have h2 : q.2 = BindingStatus.applied := by simpa using hq
      rw [← h, h2]
      decide
    | none =>
      rw [hfind] at h
      have hmem : p ∈ items := List.mem_of_mem_head? h
      rcases hall p hmem with h2 | h2 <;> rw [h2] <;> decide
  · intro items rid oldS newS h hall
    unfold upsertContactProfilePassive at h
    cases hh : items.head? with
    | none =>
      rw [hh] at h
      exact absurd h (by simp)
    | some q =>
      rw [hh] at h
      injection h with h1 h2 h3
      subst h2
      subst h3
      have hmem : q ∈ items := List.mem_of_mem_head? hh
      refine ⟨rfl, ?_⟩
      rcases hall q hmem with h2 | h2 <;> rw [h2] <;> decide
  · intro items st h
    unfold upsertContactProfilePassive at h
    cases hh : items.head? with
    | none =>
      rw [hh] at h
      injection h with h1
      exact h1.symm
    | some q =>
      rw [hh] at h
      exact absurd h (by simp)

/-- Witness for C4: a 已申请 record matched by nickname is moved to 已绑定,
an Applied→Bound transition inside the extended (and the original) graph. -/
theorem statusWritesFollowExtendedGraph_w :
    extTransitionAllowed (BindingStatus.applied) .bound = true :=
  (statusWritesFollowExtendedGraph.2.1 [("rec1", .applied)] ("rec1", .applied)
    (by decide) (by decide))

/-- Claim C5: `_request` retries 429/502/503/504 and connection/timeout
errors with exponentially growing backoff (2^(attempt+1)) up to
`_max_retries`, then surfaces the last error; other non-retryable 4xx
statuses fail immediately with a single attempt.  Scenario 4: three
consecutive 503s then a 200 succeed on the 4th attempt with max-retries 3,
and raise after exactly 3 attempts with max-retries 2. -/
theorem feishuRetryPolicy :
    feishuRequest defaultMaxRetries scenarioFourOutcomes =
      (.success, 4, [2, 4, 8]) ∧
    feishuRequest 2 scenarioFourOutcomes =
      (.failed (.httpError 503), 3, [2, 4]) ∧
    (∀ (mr : Nat) (oc : Nat → AttemptOutcome) (s : Nat),
        oc 0 = .httpErr s → 400 ≤ s → s < 500 → retryableStatus s = false →
        feishuRequest mr oc = (.failed (.httpError s), 1, [])) ∧
    (∀ (mr : Nat) (oc : Nat → AttemptOutcome),
        (∀ n, oc n = .httpErr 503) →
        feishuRequest mr oc =
          (.failed (.httpError 503), mr + 1, (List.range mr).map backoffWait)) ∧
    (∀ (mr : Nat) (oc : Nat → AttemptOutcome),
        (∀ n, oc n = .netErr) →
        feishuRequest mr oc =
          (.failed .netError, mr + 1, (List.range mr).map backoffWait)) ∧
    (∀ k l : Nat, k < l → backoffWait k < backoffWait l) := by
  refine ⟨by decide, by decide, ?_, ?_, ?_, ?_⟩
  · intro mr oc s h0 _ _ hnr
    unfold feishuRequest
    simp only [requestFrom, h0, hnr, Bool.false_and, Bool.false_eq_true, if_false]
  · intro mr oc hall
    have hskip := requestFrom_skipRetried mr oc mr (mr + 1) 0 none
      (by intro i _; rw [hall]; decide) (by omega) (by omega)
    unfold feishuRequest
    rw [hskip]
    have hcore : requestFrom mr oc (mr + 1 - mr) (0 + mr) none =
        (.failed (.httpError 503), 1, []) := by
      have h1 : mr + 1 - mr = 1 := by omega
      rw [h1]
      simp only [requestFrom, hall (0 + mr)]
      rw [if_neg]
      simp
    rw [hcore]
    simp [List.range_eq_range']
    omega
  · intro mr oc hall
    have hskip := requestFrom_skipRetried mr oc mr (mr + 1) 0 none
      (by intro i _; rw [hall]; decide) (by omega) (by omega)
    unfold feishuRequest
    rw [hskip]
    have hcore : requestFrom mr oc (mr + 1 - mr) (0 + mr) none =
        (.failed .netError, 1, []) := by
      have h1 : mr + 1 - mr = 1 := by omega
      rw [h1]
      simp only [requestFrom, hall (0 + mr)]
      rw [if_neg]
      simp
    rw [hcore]
    simp [List.range_eq_range']
    omega
  · intro k l hkl
    have h2 : (1 : Nat) < 2 := by omega
    exact Nat.pow_lt_pow_right h2 (by omega)

/-- Witness for C5: a 404 (non-retryable 4xx) on the first attempt fails at
once with a single HTTP attempt and no backoff. -/
theorem feishuRetryPolicy_w :
    feishuRequest 3 (fun _ => .httpErr 404) =
      (.failed (.httpError 404), 1, []) :=
  feishuRetryPolicy.2.2.1 3 (fun _ => .httpErr 404) 404 rfl (by decide)
    (by decide) (by decide)

/-- Claim C6: when the HTTP response of attempt `j` is successful but the
JSON body carries business code ≠ 0, `_request` raises the business error
immediately — the `RuntimeError` is caught by no `except` clause — so the
total number of HTTP attempts is exactly `j + 1`: zero additional attempts
after the business error, in particular one single attempt when it arrives
first. -/
theorem bizErrorNoRetry :
    ∀ (mr : Nat) (oc : Nat → AttemptOutcome) (c : Int) (j : Nat),
      j ≤ mr → (∀ i, i < j → retriedOutcome (oc i) = true) →
      oc j = .httpOk c → c ≠ 0 →
      feishuRequest mr oc =
        (.failed (.bizError c), j + 1, (List.range j).map backoffWait) := by
  intro mr oc c j hj hret hj2 hc
  have hskip := requestFrom_skipRetried mr oc j (mr + 1) 0 none
    (by intro i hi; simpa using hret i hi) (by omega) (by omega)
  unfold feishuRequest
  rw [hskip]
  obtain ⟨k, hk⟩ : ∃ k, mr + 1 - j = k + 1 := ⟨mr - j, by omega⟩
  have hcore : requestFrom mr oc (mr + 1 - j) (0 + j) none =
      (.failed (.bizError c), 1, []) := by
    rw [hk]
    have h0j : 0 + j = j := by omega
    rw [h0j]
    simp only [requestFrom, hj2]
    rw [if_neg]
    simp [hc]
  rw [hcore]
  simp [List.range_eq_range']
  omega

/-- Witness for C6: a first-attempt HTTP 200 carrying business code 5 fails
at once with a single HTTP attempt. -/
theorem bizErrorNoRetry_w :
    feishuRequest 3 (fun _ => .httpOk 5) = (.failed (.bizError 5), 1, []) :=
  bizErrorNoRetry 3 (fun _ => .httpOk 5) 5 0 (by decide)
    (fun i hi => absurd hi (Nat.not_lt_zero i)) rfl (by decide)

/-- Claim C7 counterexample: the active loop's inter-iteration wait
(engine.py:311) blocks on `pause_event`; with `stop()` already signalled at
time 0 and pause never signalled, the wait still runs its full
`feishu_poll_interval` of 5 seconds — stop does not interrupt it. -/
theorem stopDoesNotInterruptWaits :
    (⟨"active.pollWait", .pauseEvent⟩ : WaitSite) ∈ engineWaitSites ∧
    waitSiteElapsed ⟨"active.pollWait", .pauseEvent⟩ (some 0) none
      defaultFeishuPollInterval = 5 := by
  decide

/-- Claim C7 (amended): every blocking wait in both loops blocks on
`pause_event` only, so each wait is interruptible by `pause()` (elapsed time
never exceeds the pause-signal time) but never by `stop()` (the elapsed time
is independent of when stop is signalled); each wait is bounded by its own
timeout, and the passive loop's timeout is at least 10 s — strictly more
than the default 5 s active poll interval — so after `stop()` the threads
exit only at their next top-of-loop check, not within the shorter loop
interval. -/
theorem waitsInterruptibleByPauseOnly :
    (∀ w ∈ engineWaitSites, w.event = .pauseEvent) ∧
    (∀ w ∈ engineWaitSites, ∀ (stopAt : Option Nat) (p timeout : Nat),
        waitSiteElapsed w stopAt (some p) timeout ≤ p) ∧
    (∀ w ∈ engineWaitSites, ∀ (s1 s2 pauseAt : Option Nat) (timeout : Nat),
        waitSiteElapsed w s1 pauseAt timeout = waitSiteElapsed w s2 pauseAt timeout) ∧
    (∀ (w : WaitSite) (stopAt pauseAt : Option Nat) (timeout : Nat),
        waitSiteElapsed w stopAt pauseAt timeout ≤ timeout) ∧
    (∀ i j : Int, (defaultFeishuPollInterval : Int) < passiveWaitSeconds i j) := by
  refine ⟨by decide, ?_, ?_, ?_, ?_⟩
  · rintro ⟨nm, ev⟩ hw stopAt p timeout
    have hev : ev = EngineEvent.pauseEvent := by
      have hall : ∀ w ∈ engineWaitSites, w.event = EngineEvent.pauseEvent := by decide
      exact hall ⟨nm, ev⟩ hw
    subst hev
    simp [waitSiteElapsed, eventWaitElapsed]
  · rintro ⟨nm, ev⟩ hw s1 s2 pauseAt timeout
    have hev : ev = EngineEvent.pauseEvent := by
      have hall : ∀ w ∈ engineWaitSites, w.event = EngineEvent.pauseEvent := by decide
      exact hall ⟨nm, ev⟩ hw
    subst hev
    rfl
  · rintro ⟨nm, ev⟩ stopAt pauseAt timeout
    cases ev <;> cases stopAt <;> cases pauseAt <;>
      simp [waitSiteElapsed, eventWaitElapsed]
  · intro i j
    have h1 : (10 : Int) ≤ passiveWaitSeconds i j := le_max_left 10 (i + j)
    have h2 : ((defaultFeishuPollInterval : Nat) : Int) = 5 := by decide
    omega

/-- Witness for C7: the active loop's paused-state check wait, with pause()
signalled at its start, returns immediately. -/
theorem waitsInterruptibleByPauseOnly_w :
    waitSiteElapsed ⟨"active.pausedCheck", .pauseEvent⟩ none (some 0) 1 ≤ 0 :=
  waitsInterruptibleByPauseOnly.2.1 ⟨"active.pausedCheck", .pauseEvent⟩
    (by decide) none 0 1

/-- Claim C8 counterexample: with the profile window showing only the add
affordance and the main window showing the message affordance, the scan
reaches the add affordance in the earlier container first and classifies
stranger, although a message affordance is present among the polled
containers. -/
theorem crossContainerAddWins :
    detectRelationshipState
      [⟨true, ["添加到通讯录"]⟩, ⟨true, ["发消息"]⟩] 1 = .stranger ∧
    [(⟨true, ["添加到通讯录"]⟩ : UIContainer),
      ⟨true, ["发消息"]⟩].any hasFriendAffordance = true := by
  decide

/-- Claim C8 (amended): the containers are examined in order and the first
container exhibiting either affordance decides; friend labels outrank add
labels only within a single container.  Hence classification returns friend
whenever some container shows a message affordance and no strictly earlier
container shows an add affordance — in particular a container showing both
yields friend. -/
theorem friendPriorityPerContainer :
    ∀ (cs : List UIContainer) (polls : Nat), 1 ≤ polls →
      ∀ (i : Nat) (h : i < cs.length),
        hasFriendAffordance (cs.get ⟨i, h⟩) = true →
        (∀ j (hj : j < i), hasAddAffordance (cs.get ⟨j, Nat.lt_trans hj h⟩) = false) →
        detectRelationshipState cs polls = .friend := by
  intro cs polls hp i h hf hna
  have hs := scanPass_friend cs i h hf hna
  unfold detectRelationshipState
  rw [if_neg (by omega), hs]

/-- Witness for C8: a single container showing both the message and the add
affordance classifies as friend. -/
theorem friendPriorityPerContainer_w :
    detectRelationshipState [⟨true, ["发消息", "添加到通讯录"]⟩] 1 = .friend :=
  friendPriorityPerContainer [⟨true, ["发消息", "添加到通讯录"]⟩] 1 (by decide)
    0 (by decide) (by decide) (fun j hj => absurd hj (Nat.not_lt_zero j))

/-- Claim C9: sequential `_request` calls are gated by `_min_request_interval`
(set from the start of the previous call's last HTTP attempt), so no two
consecutive calls start closer together than the configured minimum; the
default interval is 0.5 s, inside the 0.3–0.5 s range. -/
theorem minRequestSpacing :
    (∀ (m last : Nat) (cs : List RequestCallTiming),
        List.Chain' (fun a b => a + m ≤ b) (requestStartTimes m last cs)) ∧
    defaultMinRequestIntervalMs = 500 ∧
    300 ≤ defaultMinRequestIntervalMs ∧ defaultMinRequestIntervalMs ≤ 500 :=
  ⟨fun m last cs => (requestSpacingAll m cs last).1, rfl, by decide, by decide⟩

/-- Claim C10: `pause()` returns true exactly when the engine was not already
paused and leaves it paused; `resume()` returns true exactly when it was
paused and leaves it running; a second consecutive `pause()` — and a second
consecutive `resume()` — returns false. -/
theorem pauseResumeToggle :
    ∀ s : EngineState,
      ((enginePause s).1 = true ↔ s.paused = false) ∧
      (enginePause s).2.paused = true ∧
      ((engineResume s).1 = true ↔ s.paused = true) ∧
      (engineResume s).2.paused = false ∧
      (enginePause (enginePause s).2).1 = false ∧
      (engineResume (engineResume s).2).1 = false := by
  rintro ⟨p⟩
  cases p <;> decide
